import Mathlib

/-!
# Verification of the stress-minimization optimization loop of lbeam.cpp

Shallow embedding of `src/projects/stress_min/lbeam.cpp` (OpenLSTO project
driver): the level-set topology-optimization control loop for the L-beam
stress-minimization problem.

Modelling conventions:
* C++ `double` values are modelled as rationals (`ℚ`); the decimal literals
  of the source (0.4, 1e-6, 0.0005, 1.001, ...) are taken at their exact
  decimal values.
* The external engines (FEA solver, sensitivity engine, level-set geometry
  engine, constrained optimizer) are out of scope of the spec and are not
  part of the repository sources under scrutiny; their per-iteration outputs
  are supplied by an environment `Env` indexed by the iteration number
  (1-indexed, matching `count_iter` after its increment at the loop head).
* The loop body (lines 328-467 of lbeam.cpp) is the function `body`;
  `iterState env n` is the run state after `n` completed iterations, and
  `run env` is the final state of the actual `while` loop including its
  `break` statement and iteration ceiling.
-/

namespace LBeam

/-! ## Constants of lbeam.cpp (problem setup and optimization settings) -/

/-- Line 39: number of FEA/LSM elements in x. -/
def num_elem_x : ℕ := 100

/-- Line 40: number of FEA/LSM elements in y. -/
def num_elem_y : ℕ := 100

/-- Line 164: CFL move limit. -/
def move_limit : ℚ := 1/2

/-- Line 260: maximum number of iterations. -/
def max_iter : ℕ := 500

/-- Line 261: maximum material area fraction (0.4). -/
def max_area : ℚ := 2/5

/-- Lines 263-264: LSM mesh area, the full box minus the killed square:
width * height - (width*3/5)^2.  The LSM mesh is 100 x 100, so this is
10000 - 3600 = 6400. -/
def mesh_area : ℚ := (num_elem_x : ℚ) * (num_elem_y : ℚ)
  - ((num_elem_x : ℚ) * 3/5)^2

/-- Line 265: declared convergence bound (0.001).  Note: the loop's break
test uses the literal 0.0005, not this constant. -/
def max_diff : ℚ := 1/1000

/-- Line 266: p-norm exponent for the stress aggregate. -/
def p_norm : ℚ := 6

/-- Line 144: least-squares interpolation radius in grid spacings. -/
def least_sq_radius : ℚ := 2

/-- Line 142: sensitivity type selector (1 = stress). -/
def sens_type : ℕ := 1

/-- Line 399: reduced move limit for the constrained sub-problem (0.15). -/
def reduced_move_limit : ℚ := 3/20

/-- Line 341: the clamping threshold 1e-6 for element area fractions. -/
def area_fraction_min : ℚ := 1/1000000

/-! ## External collaborator outputs

The FEA solver, the sensitivity engine, the level-set geometry engine and
the constrained optimizer are external collaborators (their code is not in
the repository sources under verification).  Their per-iteration outputs
are modelled as an environment indexed by the iteration number `k ≥ 1`. -/

/-- Per-iteration outputs of the external engines, as consumed by the loop
body of lbeam.cpp.  Modelled from the spec (section 6, External
Interfaces): the engines' internals are out of scope; each field is the
value the named engine hands the loop in iteration `k`. -/
structure Env where
  /-- sens.objective after ComputeStressSensitivities in iteration k. -/
  objective : ℕ → ℚ
  /-- sens.von_mises_max in iteration k. -/
  von_mises_max : ℕ → ℚ
  /-- boundary.area, the boundary-integrated structural area freshly
  computed by the geometry engine in iteration k. -/
  boundaryArea : ℕ → ℚ
  /-- the boolean returned by level_set.update(time_step) in iteration k:
  whether advection performed an implicit reinitialization. -/
  isReinitialised : ℕ → Bool
  /-- lsm_mesh.elements[i].area, the raw area fraction of element i as
  computed by boundary.computeAreaFractions() in iteration k. -/
  rawArea : ℕ → ℕ → ℚ
  /-- the scalar the sensitivity engine interpolates at a boundary-point
  coordinate in iteration k (spec: interpolateAtPoint with the fixed
  radius and objective type). -/
  interp : ℕ → ℚ × ℚ → ℚ
  /-- the coordinates of the ordered boundary points produced by
  boundary.discretise in iteration k. -/
  bpoints : ℕ → List (ℚ × ℚ)
  /-- the time step chosen by the constrained optimizer in iteration k. -/
  timeStep : ℕ → ℚ
  /-- the Lagrange multipliers written by optimise.get_lambdas in
  iteration k (the lambdas vector has two entries). -/
  lambdaOut : ℕ → ℚ × ℚ

/-! ## Data model -/

/-- A boundary point as the loop body writes it (lines 362-376): its
coordinate and its two sensitivity components. -/
structure BPoint where
  coord : ℚ × ℚ
  sens0 : ℚ
  sens1 : ℚ
deriving DecidableEq

/-- Default boundary point used only as the out-of-range default of
List.getD; every access below is guarded by a length bound. -/
def bpDefault : BPoint := ⟨(0, 0), 0, 0⟩

/-- One tab-separated line of results/history/history.txt (lines 456-458):
columns Iteration, Stress, Tvm_max, Area, Change. -/
structure Record where
  iteration : ℕ
  stress : ℚ
  tvm_max : ℚ
  area : ℚ
  change : ℚ
deriving DecidableEq

/-- Default record used only as the out-of-range default of List.getD. -/
def recDefault : Record := ⟨0, 0, 0, 0, 0⟩

/-- The mutable run state of the optimization loop: the variables of main
that survive from one iteration to the next, together with the
per-iteration observables the claims speak about (the most recent
iteration's local `area`, `constraint_distances`, the argument passed to
boundary.discretise, the boundary points after sensitivity assignment, and
whether the scheduler forced an explicit reinitialization). -/
structure State where
  /-- line 272: number of completed iterations. -/
  count_iter : ℕ
  /-- line 168: `double num_reinit`, cycles since last reinitialization. -/
  num_reinit : ℚ
  /-- line 268: accumulated time. -/
  time : ℚ
  /-- line 269: `vector<double> lambdas(2)`. -/
  lambdas : List ℚ
  /-- line 270: objective history, one entry per completed iteration. -/
  objective_values : List ℚ
  /-- line 271: `double relative_difference = 1.0`. -/
  relative_difference : ℚ
  /-- sens.boundary_sensitivities, the engine's transient buffer. -/
  boundary_sensitivities : List ℚ
  /-- boundary.points after the sensitivity-assignment loop of the most
  recent iteration. -/
  points : List BPoint
  /-- the local `constraint_distances` vector of the most recent iteration
  (lines 383-386); it is a fresh local every iteration. -/
  constraint_distances : List ℚ
  /-- the second argument passed to boundary.discretise in the most recent
  iteration (line 333: lambdas.size()). -/
  discretiseArg : ℕ
  /-- whether the scheduler called level_set.reinitialise() explicitly in
  the most recent iteration (line 419). -/
  forcedReinit : Bool
  /-- the local `double area = boundary.area / mesh_area` of the most
  recent iteration (line 432). -/
  area : ℚ
  /-- the records appended to results/history/history.txt so far. -/
  history : List Record

/-- The state right before the while loop (lines 168, 268-272): zero
iterations completed, counter 0, lambdas = two zero entries, empty
objective history, relative_difference = 1.0, empty history file. -/
def initState : State where
  count_iter := 0
  num_reinit := 0
  time := 0
  lambdas := [0, 0]
  objective_values := []
  relative_difference := 1
  boundary_sensitivities := []
  points := []
  constraint_distances := []
  discretiseArg := 0
  forcedReinit := false
  area := 0
  history := []

/-! ## Components of the loop body -/

/-- Lines 338-344: the area fraction assigned to FEA element i in
iteration k: the raw level-set fraction, clamped up to 1e-6 when below
that threshold. -/
def assignedAreaFraction (env : Env) (k i : ℕ) : ℚ :=
  if env.rawArea k i < area_fraction_min then area_fraction_min
  else env.rawArea k i

/-- Modelled from the spec: sens.ComputeBoundarySensitivities (FEA library
code, not in the repository sources) interpolates the Gauss-point
sensitivities at the given coordinate and appends the resulting scalar to
the engine's transient buffer sens.boundary_sensitivities. -/
def computeBoundarySensitivities (interp : ℚ × ℚ → ℚ) (buf : List ℚ)
    (p : ℚ × ℚ) : List ℚ :=
  buf ++ [interp p]

/-- Lines 362-376, the sensitivity-assignment loop over boundary points:
for the i-th point, call the engine (which appends to its buffer), then
set sensitivities[0] to the negation of buffer entry i and
sensitivities[1] to -1.  Returns the assigned points and the final
buffer.  The getD default is never reached when the incoming buffer
length equals the starting index (the engine has appended entry i before
it is read). -/
def mapperGo (interp : ℚ × ℚ → ℚ) (buf : List ℚ) (i : ℕ) :
    List (ℚ × ℚ) → List BPoint × List ℚ
  | [] => ([], buf)
  | p :: rest =>
    let buf2 := computeBoundarySensitivities interp buf p
    let bp : BPoint := ⟨p, -(buf2.getD i 0), -1⟩
    let r := mapperGo interp buf2 (i + 1) rest
    (bp :: r.1, r.2)

/-- The Sensitivity Mapper: run the assignment loop from index 0 over all
boundary points, starting from the engine's current buffer. -/
def mapSensitivities (interp : ℚ × ℚ → ℚ) (buf : List ℚ)
    (pts : List (ℚ × ℚ)) : List BPoint × List ℚ :=
  mapperGo interp buf 0 pts

/-- Lines 415-426, the reinitialization scheduler: given the
advection-reported boolean and the current counter, return whether an
explicit level_set.reinitialise() is forced and the counter value after
the unconditional increment at line 426. -/
def schedulerStep (is_reinitialised : Bool) (nr : ℚ) : Bool × ℚ :=
  if !is_reinitialised then
    if nr = 1 then (true, 0 + 1)
    else (false, nr + 1)
  else (false, 0 + 1)

/-- Replay of the scheduler over a scripted sequence of advection-reported
booleans: the list of forced-reinitialization flags, one per iteration. -/
def schedulerRun (nr : ℚ) : List Bool → List Bool
  | [] => []
  | b :: rest =>
    let st := schedulerStep b nr
    st.1 :: schedulerRun st.2 rest

/-- Lines 437-449, the convergence tracker computation performed when
count_iter > 5: starting from 0.0, take for i = 1..5 the maximum with
the absolute relative change against objective_values[count_iter-i-1]. -/
def relDiffLoop (objK : ℚ) (vals : List ℚ) (k : ℕ) : ℚ :=
  (List.range 5).foldl
    (fun rd j => max rd |(objK - vals.getD (k - (j + 1) - 1) 0) / objK|) 0

/-! ## The loop body and the loop -/

/-- One pass of the while-loop body (lines 328-467), for iteration
k = count_iter + 1.  External results are read off `env`; the record of
field updates follows the source order: discretisation (with argument
lambdas.size()), area fractions, FEA solve and stress sensitivities
(external), the sensitivity mapper followed by the buffer clear (line
378), the fresh constraint_distances vector (lines 383-386), the
optimizer (external, writing lambdas), velocity extension / gradients /
advection (external, reporting is_reinitialised), the reinitialization
scheduler, time accumulation, the area fraction, the objective push and
the conditional relative-difference recomputation, and the history
record. -/
def body (env : Env) (s : State) : State :=
  let k := s.count_iter + 1
  let dArg := s.lambdas.length
  let pts := env.bpoints k
  let m := mapSensitivities (env.interp k) s.boundary_sensitivities pts
  let cds : List ℚ := [mesh_area * max_area - env.boundaryArea k]
  let lam := env.lambdaOut k
  let sched := schedulerStep (env.isReinitialised k) s.num_reinit
  let a := env.boundaryArea k / mesh_area
  let ovs := s.objective_values ++ [env.objective k]
  let rd := if 5 < k then relDiffLoop (env.objective k) ovs k
            else s.relative_difference
  { count_iter := k
    num_reinit := sched.2
    time := s.time + env.timeStep k
    lambdas := [lam.1, lam.2]
    objective_values := ovs
    relative_difference := rd
    boundary_sensitivities := []
    points := m.1
    constraint_distances := cds
    discretiseArg := dArg
    forcedReinit := sched.1
    area := a
    history := s.history ++
      [⟨k, env.objective k, env.von_mises_max k, a, rd⟩] }

/-- The run state after n completed iterations (ignoring the break and the
ceiling, which never change the per-iteration computation). -/
def iterState (env : Env) : ℕ → State
  | 0 => initState
  | n + 1 => body env (iterState env n)

/-- Line 465, the break condition evaluated at the end of an iteration:
relative_difference <= 0.0005 and area <= 1.001 * max_area. -/
abbrev breakCond (s : State) : Prop :=
  s.relative_difference ≤ 1/2000 ∧ s.area ≤ 1001/1000 * max_area

/-- The while loop with its guard (line 328) and break (line 465), driven
by a fuel bound; with fuel max_iter + 1 the guard always fails before the
fuel does. -/
def runAux (env : Env) : ℕ → State → State
  | 0, s => s
  | fuel + 1, s =>
    if s.count_iter < max_iter then
      let s2 := body env s
      if breakCond s2 then s2 else runAux env fuel s2
    else s

/-- The whole optimization loop of lbeam.cpp: run from the initial state
until the break fires or the iteration ceiling is reached. -/
def run (env : Env) : State := runAux env (max_iter + 1) initState

/-- The break condition holds at the end of iteration k. -/
abbrev stops (env : Env) (k : ℕ) : Prop := breakCond (iterState env k)

/-- There is an iteration index at which the loop must stop: the ceiling
itself qualifies. -/
theorem stopEx (env : Env) :
    ∃ k, k = max_iter ∨ (1 ≤ k ∧ stops env k) :=
  ⟨max_iter, Or.inl rfl⟩

/-- The first iteration index at which the loop stops: the least k that is
the ceiling or is a completed iteration satisfying the break condition. -/
def stopIter (env : Env) : ℕ := Nat.find (stopEx env)

/-- A concrete environment: every engine output is constant (objective 1,
boundary area 0, no implicit reinitializations, no boundary points). -/
def envC : Env where
  objective := fun _ => 1
  von_mises_max := fun _ => 0
  boundaryArea := fun _ => 0
  isReinitialised := fun _ => false
  rawArea := fun _ _ => 0
  interp := fun _ _ => 0
  bpoints := fun _ => []
  timeStep := fun _ => 0
  lambdaOut := fun _ => (0, 0)

/-! ## Projections of the loop body -/

theorem body_count_iter (env : Env) (s : State) :
    (body env s).count_iter = s.count_iter + 1 := rfl

theorem body_num_reinit (env : Env) (s : State) :
    (body env s).num_reinit =
      (schedulerStep (env.isReinitialised (s.count_iter + 1)) s.num_reinit).2 :=
  rfl

theorem body_forcedReinit (env : Env) (s : State) :
    (body env s).forcedReinit =
      (schedulerStep (env.isReinitialised (s.count_iter + 1)) s.num_reinit).1 :=
  rfl

theorem body_lambdas (env : Env) (s : State) :
    (body env s).lambdas =
      [(env.lambdaOut (s.count_iter + 1)).1, (env.lambdaOut (s.count_iter + 1)).2] :=
  rfl

theorem body_objective_values (env : Env) (s : State) :
    (body env s).objective_values =
      s.objective_values ++ [env.objective (s.count_iter + 1)] := rfl

theorem body_relative_difference (env : Env) (s : State) :
    (body env s).relative_difference =
      if 5 < s.count_iter + 1 then
        relDiffLoop (env.objective (s.count_iter + 1))
          (s.objective_values ++ [env.objective (s.count_iter + 1)])
          (s.count_iter + 1)
      else s.relative_difference := rfl

theorem body_boundary_sensitivities (env : Env) (s : State) :
    (body env s).boundary_sensitivities = [] := rfl

theorem body_points (env : Env) (s : State) :
    (body env s).points =
      (mapSensitivities (env.interp (s.count_iter + 1)) s.boundary_sensitivities
        (env.bpoints (s.count_iter + 1))).1 := rfl

theorem body_constraint_distances (env : Env) (s : State) :
    (body env s).constraint_distances =
      [mesh_area * max_area - env.boundaryArea (s.count_iter + 1)] := rfl

theorem body_discretiseArg (env : Env) (s : State) :
    (body env s).discretiseArg = s.lambdas.length := rfl

theorem body_area (env : Env) (s : State) :
    (body env s).area = env.boundaryArea (s.count_iter + 1) / mesh_area := rfl

theorem body_history (env : Env) (s : State) :
    (body env s).history = s.history ++
      [⟨s.count_iter + 1, env.objective (s.count_iter + 1),
        env.von_mises_max (s.count_iter + 1),
        env.boundaryArea (s.count_iter + 1) / mesh_area,
        (body env s).relative_difference⟩] := rfl

/-! ## Basic invariants of the iteration states -/

theorem iterState_succ (env : Env) (n : ℕ) :
    iterState env (n + 1) = body env (iterState env n) := rfl

theorem count_iter_iterState (env : Env) : ∀ n, (iterState env n).count_iter = n := by
  intro n
  induction n with
  | zero => rfl
  | succ m ih => rw [iterState_succ, body_count_iter, ih]

theorem boundary_sensitivities_iterState (env : Env) (n : ℕ) :
    (iterState env n).boundary_sensitivities = [] := by
  cases n with
  | zero => rfl
  | succ m => rw [iterState_succ, body_boundary_sensitivities]

theorem lambdas_length_iterState (env : Env) (n : ℕ) :
    (iterState env n).lambdas.length = 2 := by
  cases n with
  | zero => rfl
  | succ m => rw [iterState_succ, body_lambdas]; rfl

theorem objective_values_iterState (env : Env) :
    ∀ n, (iterState env n).objective_values =
      (List.range n).map fun j => env.objective (j + 1) := by
  intro n
  induction n with
  | zero => rfl
  | succ m ih =>
      rw [iterState_succ, body_objective_values, ih, count_iter_iterState,
        List.range_succ, List.map_append]
      rfl

theorem objective_values_getD (env : Env) (n j : ℕ) (h : j < n) :
    (iterState env n).objective_values.getD j 0 = env.objective (j + 1) := by
  rw [objective_values_iterState]
  rw [List.getD_eq_getElem _ _ (by simpa using h)]
  simp [h]

theorem relative_difference_of_le_five (env : Env) :
    ∀ n, n ≤ 5 → (iterState env n).relative_difference = 1 := by
  intro n
  induction n with
  | zero => intro _; rfl
  | succ m ih =>
      intro h
      rw [iterState_succ, body_relative_difference, count_iter_iterState,
        if_neg (by omega)]
      exact ih (by omega)

theorem schedulerStep_snd_zero (b : Bool) : (schedulerStep b 0).2 = 1 := by
  cases b <;> norm_num [schedulerStep]

theorem schedulerStep_snd_one (b : Bool) : (schedulerStep b 1).2 = 1 := by
  cases b <;> norm_num [schedulerStep]

theorem schedulerStep_fst (b : Bool) (c : ℚ) :
    (schedulerStep b c).1 = (!b && decide (c = 1)) := by
  cases b <;> by_cases hc : c = 1 <;> simp [schedulerStep, hc]

theorem num_reinit_iterState (env : Env) :
    ∀ n, 1 ≤ n → (iterState env n).num_reinit = 1 := by
  intro n
  induction n with
  | zero => omega
  | succ m ih =>
      intro _
      rw [iterState_succ, body_num_reinit]
      cases m with
      | zero => rw [show (iterState env 0).num_reinit = 0 from rfl]
                exact schedulerStep_snd_zero _
      | succ l => rw [ih (by omega)]; exact schedulerStep_snd_one _

theorem forcedReinit_iterState (env : Env) (n : ℕ) (h : 1 ≤ n) :
    (iterState env (n + 1)).forcedReinit = !env.isReinitialised (n + 1) := by
  rw [iterState_succ, body_forcedReinit, count_iter_iterState,
    num_reinit_iterState env n h, schedulerStep_fst]
  simp

theorem getD_concat_length {α : Type} (l : List α) (x d : α) :
    (l ++ [x]).getD l.length d = x := by
  rw [List.getD_append_right _ _ _ _ (le_refl _)]
  simp

theorem mapperGo_spec (interp : ℚ × ℚ → ℚ) :
    ∀ (pts : List (ℚ × ℚ)) (buf : List ℚ) (i : ℕ), buf.length = i →
      (mapperGo interp buf i pts).2 = buf ++ pts.map interp ∧
      (mapperGo interp buf i pts).1.length = pts.length ∧
      ∀ j, j < pts.length →
        (mapperGo interp buf i pts).1.getD j bpDefault =
          ⟨pts.getD j (0, 0), -(interp (pts.getD j (0, 0))), -1⟩ := by
  intro pts
  induction pts with
  | nil =>
      intro buf i h
      refine ⟨by simp [mapperGo], by simp [mapperGo], ?_⟩
      intro j hj
      simp at hj
  | cons p rest ih =>
      intro buf i h
      have hlen : (computeBoundarySensitivities interp buf p).length = i + 1 := by
        simp [computeBoundarySensitivities, h]
      obtain ⟨h1, h2, h3⟩ :=
        ih (computeBoundarySensitivities interp buf p) (i + 1) hlen
      have hbuf : (computeBoundarySensitivities interp buf p).getD i 0 = interp p := by
        rw [computeBoundarySensitivities, ← h, getD_concat_length]
      refine ⟨?_, ?_, ?_⟩
      · show (mapperGo interp (computeBoundarySensitivities interp buf p)
          (i + 1) rest).2 = buf ++ (p :: rest).map interp
        rw [h1]
        simp [computeBoundarySensitivities]
      · show (⟨p, -((computeBoundarySensitivities interp buf p).getD i 0), -1⟩
          :: (mapperGo interp (computeBoundarySensitivities interp buf p)
            (i + 1) rest).1 : List BPoint).length = (p :: rest).length
        simp [h2]
      · intro j hj
        cases j with
        | zero =>
            show (⟨p, -((computeBoundarySensitivities interp buf p).getD i 0), -1⟩
              :: (mapperGo interp (computeBoundarySensitivities interp buf p)
                (i + 1) rest).1 : List BPoint).getD 0 bpDefault = _
            rw [hbuf]
            rfl
        | succ jj =>
            show (⟨p, -((computeBoundarySensitivities interp buf p).getD i 0), -1⟩
              :: (mapperGo interp (computeBoundarySensitivities interp buf p)
                (i + 1) rest).1 : List BPoint).getD (jj + 1) bpDefault = _
            have hjj : jj < rest.length := by
              simpa using Nat.lt_of_succ_lt_succ hj
            calc ((⟨p, -((computeBoundarySensitivities interp buf p).getD i 0), -1⟩
                :: (mapperGo interp (computeBoundarySensitivities interp buf p)
                  (i + 1) rest).1 : List BPoint).getD (jj + 1) bpDefault)
                = (mapperGo interp (computeBoundarySensitivities interp buf p)
                    (i + 1) rest).1.getD jj bpDefault := rfl
              _ = ⟨rest.getD jj (0, 0), -(interp (rest.getD jj (0, 0))), -1⟩ :=
                  h3 jj hjj
              _ = _ := rfl

theorem points_iterState (env : Env) (n : ℕ) :
    (iterState env (n + 1)).points =
      (mapSensitivities (env.interp (n + 1)) [] (env.bpoints (n + 1))).1 := by
  rw [iterState_succ, body_points, count_iter_iterState,
    boundary_sensitivities_iterState]

theorem history_iterState (env : Env) :
    ∀ n, (iterState env n).history.length = n ∧
      ∀ j, j < n → (iterState env n).history.getD j recDefault =
        ⟨j + 1, env.objective (j + 1), env.von_mises_max (j + 1),
         env.boundaryArea (j + 1) / mesh_area,
         (iterState env (j + 1)).relative_difference⟩ := by
  intro n
  induction n with
  | zero =>
      refine ⟨rfl, ?_⟩
      intro j hj
      omega
  | succ m ih =>
      obtain ⟨ihl, ihg⟩ := ih
      constructor
      · rw [iterState_succ, body_history, List.length_append, ihl]
        rfl
      · intro j hj
        rw [iterState_succ, body_history, count_iter_iterState]
        rcases Nat.lt_succ_iff_lt_or_eq.mp hj with hlt | heq
        · rw [List.getD_append _ _ _ _ (by rw [ihl]; exact hlt)]
          exact ihg j hlt
        · subst heq
          rw [List.getD_append_right _ _ _ _ (le_of_eq ihl)]
          rw [ihl, Nat.sub_self]
          rfl

/-! ## Termination of the loop -/

theorem stopIter_le (env : Env) : stopIter env ≤ max_iter :=
  Nat.find_min' (stopEx env) (Or.inl rfl)

theorem stopIter_spec (env : Env) :
    stopIter env = max_iter ∨ (1 ≤ stopIter env ∧ stops env (stopIter env)) :=
  Nat.find_spec (stopEx env)

theorem stopIter_min (env : Env) (k : ℕ) (h : k < stopIter env) :
    ¬(k = max_iter ∨ (1 ≤ k ∧ stops env k)) :=
  Nat.find_min (stopEx env) h

theorem stopIter_pos (env : Env) : 1 ≤ stopIter env := by
  rcases Nat.eq_zero_or_pos (stopIter env) with h0 | h1
  · exfalso
    have h := stopIter_spec env
    rw [h0] at h
    rcases h with h | h
    · exact absurd h.symm (by norm_num [max_iter])
    · omega
  · exact h1

theorem runAux_stop (env : Env) (fuel : ℕ) (s : State)
    (h : ¬ s.count_iter < max_iter) : runAux env fuel s = s := by
  cases fuel with
  | zero => rfl
  | succ f => simp only [runAux, if_neg h]

theorem runAux_reaches (env : Env) :
    ∀ fuel n, (∀ k, 1 ≤ k → k ≤ n → ¬ stops env k) →
      n < stopIter env → stopIter env ≤ n + fuel →
      runAux env fuel (iterState env n) = iterState env (stopIter env) := by
  intro fuel
  induction fuel with
  | zero =>
      intro n _ hlt hle
      omega
  | succ f ih =>
      intro n hno hlt hle
      have hmax : n < max_iter := lt_of_lt_of_le hlt (stopIter_le env)
      simp only [runAux]
      rw [if_pos (by rw [count_iter_iterState]; exact hmax)]
      by_cases hs : stops env (n + 1)
      · have hle2 : stopIter env ≤ n + 1 :=
          Nat.find_min' (stopEx env) (Or.inr ⟨by omega, hs⟩)
        have hstop : stopIter env = n + 1 := by omega
        have hs2 : breakCond (body env (iterState env n)) := hs
        rw [if_pos hs2, hstop]
        rfl
      · have hs2 : ¬ breakCond (body env (iterState env n)) := hs
        rw [if_neg hs2]
        by_cases heq : n + 1 = stopIter env
        · have hmax2 : n + 1 = max_iter := by
            rcases stopIter_spec env with h1 | h2
            · omega
            · rw [← heq] at h2
              exact absurd h2.2 hs
          have hfix := runAux_stop env f (body env (iterState env n)) (by
            rw [body_count_iter, count_iter_iterState]
            omega)
          rw [hfix, ← heq]
          rfl
        · have hlt2 : n + 1 < stopIter env := by omega
          have hno2 : ∀ k, 1 ≤ k → k ≤ n + 1 → ¬ stops env k := by
            intro k hk1 hk2
            rcases Nat.lt_or_ge k (n + 1) with hk | hk
            · exact hno k hk1 (by omega)
            · have hk3 : k = n + 1 := by omega
              rw [hk3]
              exact hs
          exact ih (n + 1) hno2 hlt2 (by omega)

theorem run_eq_iterState (env : Env) : run env = iterState env (stopIter env) :=
  runAux_reaches env (max_iter + 1) 0 (by intro k hk1 hk2; omega)
    (stopIter_pos env) (by have := stopIter_le env; omega)

/-! ## The convergence window -/

theorem relDiffLoop_window (oK : ℚ) (vals : List ℚ) (j : ℕ) :
    relDiffLoop oK vals (j + 6) =
      max (max (max (max (max 0 |(oK - vals.getD (j + 4) 0) / oK|)
            |(oK - vals.getD (j + 3) 0) / oK|)
          |(oK - vals.getD (j + 2) 0) / oK|)
        |(oK - vals.getD (j + 1) 0) / oK|)
      |(oK - vals.getD j 0) / oK| := rfl

theorem objective_values_length (env : Env) (n : ℕ) :
    (iterState env n).objective_values.length = n := by
  rw [objective_values_iterState]
  simp

theorem relative_difference_window (env : Env) (k : ℕ) (h5 : 5 < k) :
    (iterState env k).relative_difference =
      (Finset.Icc (k - 5) (k - 1)).sup' (Finset.nonempty_Icc.mpr (by omega))
        (fun m => |(env.objective k - env.objective m) / env.objective k|) := by
  obtain ⟨j, rfl⟩ : ∃ j, k = j + 6 := ⟨k - 6, by omega⟩
  have hstep : iterState env (j + 6) = body env (iterState env (j + 5)) := rfl
  rw [hstep, body_relative_difference, count_iter_iterState]
  simp only [show j + 5 + 1 = j + 6 from by omega]
  rw [if_pos (by omega : 5 < j + 6)]
  have hg : ∀ m, m < j + 5 →
      ((iterState env (j + 5)).objective_values
        ++ [env.objective (j + 6)]).getD m 0 = env.objective (m + 1) := by
    intro m hm
    rw [List.getD_append _ _ _ _ (by rw [objective_values_length]; exact hm)]
    exact objective_values_getD env (j + 5) m hm
  rw [relDiffLoop_window]
  rw [hg (j + 4) (by omega), hg (j + 3) (by omega), hg (j + 2) (by omega),
    hg (j + 1) (by omega), hg j (by omega)]
  simp only [show j + 4 + 1 = j + 5 from by omega,
    show j + 3 + 1 = j + 4 from by omega,
    show j + 2 + 1 = j + 3 from by omega,
    show j + 1 + 1 = j + 2 from by omega,
    show j + 6 - 5 = j + 1 from by omega,
    show j + 6 - 1 = j + 5 from by omega]
  have hmem : ∀ m, j + 1 ≤ m → m ≤ j + 5 →
      m ∈ Finset.Icc (j + 1) (j + 5) := by
    intro m h1 h2
    simp only [Finset.mem_Icc]
    omega
  have hles : ∀ m, j + 1 ≤ m → m ≤ j + 5 →
      |(env.objective (j + 6) - env.objective m) / env.objective (j + 6)| ≤
        (Finset.Icc (j + 1) (j + 5)).sup'
          (Finset.nonempty_Icc.mpr (by omega))
          (fun m => |(env.objective (j + 6) - env.objective m) /
            env.objective (j + 6)|) := by
    intro m h1 h2
    exact Finset.le_sup'
      (fun m => |(env.objective (j + 6) - env.objective m) /
        env.objective (j + 6)|) (hmem m h1 h2)
  apply le_antisymm
  · simp only [max_le_iff]
    refine ⟨⟨⟨⟨⟨?_, ?_⟩, ?_⟩, ?_⟩, ?_⟩, ?_⟩
    · exact le_trans (abs_nonneg _) (hles (j + 5) (by omega) (by omega))
    · exact hles (j + 5) (by omega) (by omega)
    · exact hles (j + 4) (by omega) (by omega)
    · exact hles (j + 3) (by omega) (by omega)
    · exact hles (j + 2) (by omega) (by omega)
    · exact hles (j + 1) (by omega) (by omega)
  · apply Finset.sup'_le
    intro m hm
    simp only [Finset.mem_Icc] at hm
    have hcases : m = j + 1 ∨ m = j + 2 ∨ m = j + 3 ∨ m = j + 4 ∨ m = j + 5 := by
      omega
    rcases hcases with rfl | rfl | rfl | rfl | rfl <;> simp [le_max_iff]

/-! ## Claim theorems -/

/-- C1 (amended): for every iteration k > 5 the relative-difference metric
equals the maximum over m in the window k-1 .. k-5 of
|(objective_k - objective_m) / objective_k| computed from the objective
history; for every k <= 5 it equals 1.0, the initial value of the
variable (not 0 as the original claim stated). -/
theorem C1_relative_difference (env : Env) (k : ℕ) :
    (iterState env k).relative_difference =
      if 5 < k then
        (Finset.Icc (k - 5) (k - 1)).sup' (Finset.nonempty_Icc.mpr (by omega))
          (fun m => |(env.objective k - env.objective m) / env.objective k|)
      else 1 := by
  by_cases h : 5 < k
  · rw [if_pos h]
    exact relative_difference_window env k h
  · rw [if_neg h]
    exact relative_difference_of_le_five env k (by omega)

/-- C1 counterexample: after iteration 1 (an iteration with k <= 5) the
relative-difference metric is not 0: it is 1.0, the initial value. -/
theorem C1_claim_counterexample :
    ¬ ((iterState envC 1).relative_difference = 0) := by decide

/-- C2: the loop terminates at the first iteration k at which the break
condition (relative_difference <= 5e-4 and area <= 1.001 * max_area)
holds, or at the fixed iteration ceiling of 500 iterations, whichever
comes first, and never executes a further iteration after either event:
the final state of the run is exactly the state after stopIter completed
iterations, stopIter is at most the ceiling, it is the ceiling or a
stopping iteration, and no earlier completed iteration satisfies the
break condition. -/
theorem C2_termination (env : Env) :
    max_iter = 500 ∧
    (∀ s : State, breakCond s ↔
      (s.relative_difference ≤ 5/10000 ∧ s.area ≤ 1001/1000 * (2/5))) ∧
    run env = iterState env (stopIter env) ∧
    stopIter env ≤ max_iter ∧
    (stopIter env = max_iter ∨ breakCond (iterState env (stopIter env))) ∧
    (∀ k, 1 ≤ k → k < stopIter env → ¬ breakCond (iterState env k)) := by
  refine ⟨rfl, ?_, run_eq_iterState env, stopIter_le env, ?_, ?_⟩
  · intro s
    norm_num [breakCond, max_area]
  · rcases stopIter_spec env with h | h
    · exact Or.inl h
    · exact Or.inr h.2
  · intro k h1 h2 hb
    exact stopIter_min env k h2 (Or.inr ⟨h1, hb⟩)

/-- C3: the reinitialization scheduler forces an explicit
reinitialization exactly when the advection step reports no
reinitialization and the skip counter equals 1; replaying the scripted
sequence {false, false, true, false} from a zero counter forces
reinitializations after iterations 2 and 4 (1-indexed) and after no
other iteration. -/
theorem C3_scheduler :
    (∀ (b : Bool) (c : ℚ), (schedulerStep b c).1 = (!b && decide (c = 1))) ∧
    schedulerRun 0 [false, false, true, false] = [false, true, false, true] := by
  refine ⟨schedulerStep_fst, ?_⟩
  norm_num [schedulerRun, schedulerStep]

/-- C4: in every iteration, for every analysis element, the area fraction
supplied to the structural solver equals max(f, 1e-6) where f is the raw
level-set area fraction; in particular it is never below 1e-6. -/
theorem C4_area_fraction_clamp (env : Env) (k i : ℕ) :
    assignedAreaFraction env k i = max (env.rawArea k i) area_fraction_min ∧
    area_fraction_min ≤ assignedAreaFraction env k i := by
  have h1 : assignedAreaFraction env k i
      = max (env.rawArea k i) area_fraction_min := by
    rw [assignedAreaFraction]
    rcases lt_or_le (env.rawArea k i) area_fraction_min with h | h
    · rw [if_pos h, max_eq_right (le_of_lt h)]
    · rw [if_neg (not_lt.mpr h), max_eq_left h]
  refine ⟨h1, ?_⟩
  rw [h1]
  exact le_max_right _ _

/-- C5: in every iteration k, the constraint-distance vector passed to
the constrained optimizer is the freshly built singleton
[mesh_area * max_area - boundaryArea_k], computed from that same
iteration's boundary integration and never reused from a prior
iteration. -/
theorem C5_constraint_distance (env : Env) (k : ℕ) (h : 1 ≤ k) :
    (iterState env k).constraint_distances =
      [mesh_area * max_area - env.boundaryArea k] := by
  obtain ⟨m, rfl⟩ : ∃ m, k = m + 1 := ⟨k - 1, by omega⟩
  rw [iterState_succ, body_constraint_distances, count_iter_iterState]

/-- C5 witness at the concrete environment, iteration 1. -/
theorem C5_constraint_distance_witness :
    (iterState envC 1).constraint_distances =
      [mesh_area * max_area - envC.boundaryArea 1] :=
  C5_constraint_distance envC 1 (by norm_num)

/-- C6: in every iteration, after the sensitivity mapper runs, the i-th
boundary point carries sensitivities (-interpolated value at its
coordinate, -1), and the engine's transient boundary-sensitivity buffer
is empty after processing (it is cleared at line 378). -/
theorem C6_sensitivity_mapper (env : Env) (k : ℕ) (h : 1 ≤ k) :
    ((iterState env k).points.length = (env.bpoints k).length ∧
      ∀ i, i < (env.bpoints k).length →
        (iterState env k).points.getD i bpDefault =
          ⟨(env.bpoints k).getD i (0, 0),
           -(env.interp k ((env.bpoints k).getD i (0, 0))), -1⟩) ∧
    (iterState env k).boundary_sensitivities = [] := by
  obtain ⟨m, rfl⟩ : ∃ m, k = m + 1 := ⟨k - 1, by omega⟩
  obtain ⟨h1, h2, h3⟩ :=
    mapperGo_spec (env.interp (m + 1)) (env.bpoints (m + 1)) [] 0 rfl
  rw [points_iterState]
  exact ⟨⟨h2, h3⟩, boundary_sensitivities_iterState env (m + 1)⟩

/-- C6 witness at the concrete environment, iteration 1. -/
theorem C6_sensitivity_mapper_witness :
    ((iterState envC 1).points.length = (envC.bpoints 1).length ∧
      ∀ i, i < (envC.bpoints 1).length →
        (iterState envC 1).points.getD i bpDefault =
          ⟨(envC.bpoints 1).getD i (0, 0),
           -(envC.interp 1 ((envC.bpoints 1).getD i (0, 0))), -1⟩) ∧
    (iterState envC 1).boundary_sensitivities = [] :=
  C6_sensitivity_mapper envC 1 (by norm_num)

/-- C7 counterexample: in iteration 1 the second argument passed to
boundary.discretise is not 1 (it is lambdas.size() = 2). -/
theorem C7_claim_counterexample :
    ¬ ((iterState envC 1).discretiseArg = 1) := by decide

/-- C7 (amended): in every iteration, boundary discretisation is invoked
with second argument lambdas.size() = 2 (the objective multiplier plus
the single area-constraint multiplier), not 1. -/
theorem C7_discretise_arg (env : Env) (k : ℕ) (h : 1 ≤ k) :
    (iterState env k).discretiseArg = 2 := by
  obtain ⟨m, rfl⟩ : ∃ m, k = m + 1 := ⟨k - 1, by omega⟩
  rw [iterState_succ, body_discretiseArg, lambdas_length_iterState]

/-- C7 witness at the concrete environment, iteration 1. -/
theorem C7_discretise_arg_witness : (iterState envC 1).discretiseArg = 2 :=
  C7_discretise_arg envC 1 (by norm_num)

/-- C8: after the run, the history log holds exactly one record per
completed iteration, and the j-th record (0-indexed) is the tuple
(iteration j+1, objective, max stress, area fraction, relative
difference) of iteration j+1 — so iteration indices increase strictly
from 1. -/
theorem C8_history (env : Env) :
    (run env).history.length = (run env).count_iter ∧
    ∀ j, j < (run env).count_iter →
      (run env).history.getD j recDefault =
        ⟨j + 1, env.objective (j + 1), env.von_mises_max (j + 1),
         env.boundaryArea (j + 1) / mesh_area,
         (iterState env (j + 1)).relative_difference⟩ := by
  rw [run_eq_iterState, count_iter_iterState]
  exact history_iterState env (stopIter env)

/-- C9: the loop can never exit through the convergence test during the
first 5 iterations: the relative-difference variable starts at 1.0, is
not recomputed while k <= 5, and hence the break condition is false for
every k <= 5 regardless of objectives and area. -/
theorem C9_no_early_exit (env : Env) (k : ℕ) (h : k ≤ 5) :
    initState.relative_difference = 1 ∧
    (iterState env k).relative_difference = 1 ∧
    ¬ breakCond (iterState env k) := by
  refine ⟨rfl, relative_difference_of_le_five env k h, ?_⟩
  intro hb
  have h1 := hb.1
  rw [relative_difference_of_le_five env k h] at h1
  norm_num at h1

/-- C9 witness at the concrete environment, iteration 5. -/
theorem C9_no_early_exit_witness :
    initState.relative_difference = 1 ∧
    (iterState envC 5).relative_difference = 1 ∧
    ¬ breakCond (iterState envC 5) :=
  C9_no_early_exit envC 5 (by norm_num)

/-- C10: at the end of every completed iteration the reinitialization
counter num_reinit equals exactly 1; consequently from iteration 2
onward the scheduler forces an explicit reinitialization exactly when
the advection step reports none. -/
theorem C10_reinit_counter (env : Env) (k : ℕ) (h : 1 ≤ k) :
    (iterState env k).num_reinit = 1 ∧
    (2 ≤ k → (iterState env k).forcedReinit = !env.isReinitialised k) := by
  refine ⟨num_reinit_iterState env k h, ?_⟩
  intro h2
  obtain ⟨m, rfl⟩ : ∃ m, k = m + 1 := ⟨k - 1, by omega⟩
  exact forcedReinit_iterState env m (by omega)

/-- C10 witness at the concrete environment, iteration 2. -/
theorem C10_reinit_counter_witness :
    (iterState envC 2).num_reinit = 1 ∧
    (2 ≤ 2 → (iterState envC 2).forcedReinit = !envC.isReinitialised 2) :=
  C10_reinit_counter envC 2 (by norm_num)

end LBeam
